import Mathlib

/-
Verification of the AskMyVideo client-side session orchestration logic.

The repository holds two Next.js page components sharing one orchestration
pattern:

* the session (per-query) variant, `frontend/youtube_chat/app/page.tsx`
  (the `Home` component with `prepareVideo` / `askVideoQuestion`): every
  question re-submits the YouTube URL, state is
  `youtubeUrl, question, answer, sources, status, error, loading`;

* the document (persisted-identity) variant (the `Home` component with
  `handleUpload` / `handleSendQuestion`): ingestion yields a `document_id`,
  a transcript of `Message`s accumulates, state is
  `sourceType, pdfFile, txtFile, plainText, documentId, messages, question,
  uploadStatus, chatStatus, error, isUploading, isSending, fileInputKey`.

Both components run on the single-threaded browser event loop: an event
handler executes synchronously up to its `await fetch(...)` boundary, and
the continuation after the response resolves executes synchronously as
well.  We embed each component as a state machine whose events are the UI
actions (input edits, button clicks) and the resolutions of dispatched
network requests.  A click on a button carrying `disabled={...}` while the
disabling condition holds fires no handler and is a no-op; a resolution
event with no matching pending request is likewise a no-op, so folding an
arbitrary event list from the initial state covers exactly the reachable
states.

Ghost bookkeeping added to the code state (request counters, pending
request counters, the last transmitted question, and the operation kind
that produced the current status/error text) observes behaviour the
claims talk about without altering it.
-/

namespace AskMyVideo

/-- `response.ok` of the fetch API: HTTP status in the 2xx range. -/
def ok2xx (status : Nat) : Bool := 200 ≤ status && status ≤ 299

/-- JS `text || fallback`: the raw body text when non-empty, else the
operation's fixed fallback string. -/
def errMessage (body fallback : String) : String :=
  if body = "" then fallback else body

/-- JS `String.prototype.trim`: strip whitespace from both ends.
(Defined over the character list so that concrete instances evaluate in
the kernel.) -/
def jsTrim (s : String) : String :=
  ⟨((s.data.dropWhile Char.isWhitespace).reverse.dropWhile
      Char.isWhitespace).reverse⟩

/-- JS truthiness of a possibly-missing string (a `null` JSON entry is
`none`, an empty string is falsy). -/
def truthy : Option String → Bool
  | none => false
  | some t => !(t = "")

/-! ## Session (per-query) variant: `prepareVideo` / `askVideoQuestion` -/

/-- The two operation kinds of the session variant, the values of the
`loading` state (`"index" | "ask" | null`). -/
inductive OpKind | index | ask
deriving DecidableEq, Repr

/-- Resolution of a `callBackend("/prepare", ...)` request: an HTTP
response (status and body text) or a transport error. -/
inductive PrepOutcome
  | resp (status : Nat) (body : String)
  | netErr (msg : String)
deriving DecidableEq, Repr

/-- Whether the `/prepare` call throws (`!response.ok`, or the transport
failed). -/
def PrepOutcome.isFail : PrepOutcome → Bool
  | .resp status _ => !ok2xx status
  | .netErr _ => true

/-- The message of the error thrown by `callBackend` for `/prepare`:
`(await response.text()) || "Request failed."`, or the transport error
message. -/
def PrepOutcome.failMsg : PrepOutcome → String
  | .resp _ body => errMessage body "Request failed."
  | .netErr msg => msg

/-- Resolution of a `callBackend("/ask", ...)` request: an HTTP response
(status, body text and, when the body parses, the optional `answer` and
`sources` fields) or a transport error. -/
inductive AskOutcome
  | resp (status : Nat) (body : String)
      (answer : Option String) (sources : Option (List (Option String)))
  | netErr (msg : String)
deriving DecidableEq, Repr

/-- Whether the `/ask` call throws. -/
def AskOutcome.isFail : AskOutcome → Bool
  | .resp status _ _ _ => !ok2xx status
  | .netErr _ => true

/-- The thrown error's message for `/ask`, same `callBackend` path as
`/prepare`. -/
def AskOutcome.failMsg : AskOutcome → String
  | .resp _ body _ _ => errMessage body "Request failed."
  | .netErr msg => msg

/-- `ans ?? ""` of the success path. -/
def AskOutcome.answerOrEmpty : AskOutcome → String
  | .resp _ _ a _ => a.getD ""
  | .netErr _ => ""

/-- `srcs ?? []` of the success path. -/
def AskOutcome.sourcesOrNil : AskOutcome → List (Option String)
  | .resp _ _ _ src => src.getD []
  | .netErr _ => []

/-- State of the session-variant component.  The code fields are the
`useState` hooks; `statusKind` / `errorKind` record which operation kind
wrote the current non-empty `status` / `error`; `pendingPrepare` /
`pendingAsk` count dispatched, unresolved requests; `prepareRequests` /
`askRequests` count every request ever issued; `lastAskQuestion` is the
`question` field of the most recent `/ask` body. -/
structure SState where
  youtubeUrl : String := ""
  question : String := ""
  answer : String := ""
  sources : List (Option String) := []
  status : String := ""
  error : String := ""
  loading : Option OpKind := none
  statusKind : Option OpKind := none
  errorKind : Option OpKind := none
  pendingPrepare : Nat := 0
  pendingAsk : Nat := 0
  prepareRequests : Nat := 0
  askRequests : Nat := 0
  lastAskQuestion : Option String := none
deriving DecidableEq, Repr

/-- Events of the session-variant machine: editing the two inputs,
clicking the two buttons, and the resolution of a dispatched request. -/
inductive SEvent
  | setUrl (u : String)
  | setQuestion (q : String)
  | clickPrepare
  | clickAsk
  | resolvePrepare (o : PrepOutcome)
  | resolveAsk (o : AskOutcome)
deriving DecidableEq, Repr

/-- One step of the session-variant machine.

`clickPrepare` embeds the Prepare button (`disabled={loading === "index"}`)
and the synchronous prefix of `prepareVideo`: the `!youtubeUrl` validation
sets only `error`; otherwise `setLoading("index")`,
`setStatus("Indexing video…")`, `setError("")` and the `/prepare` fetch is
dispatched.  `resolvePrepare` is the continuation: on success
`setStatus("Video ready. Ask away!")`, on a thrown error `setStatus("")`
and `setError(message)`, and in both cases the `finally` block's
`setLoading(null)`.  `clickAsk` / `resolveAsk` embed `askVideoQuestion`
the same way; note the code validates and transmits the *raw* `question`
(no trimming) and the failure path clears `answer` and `sources`. -/
def sstep (s : SState) : SEvent → SState
  | .setUrl u => { s with youtubeUrl := u }
  | .setQuestion q => { s with question := q }
  | .clickPrepare =>
      if s.loading = some OpKind.index then s
      else if s.youtubeUrl = "" then
        { s with error := "Paste a YouTube URL first.",
                 errorKind := some OpKind.index }
      else
        { s with loading := some OpKind.index,
                 status := "Indexing video…", statusKind := some OpKind.index,
                 error := "", errorKind := none,
                 pendingPrepare := s.pendingPrepare + 1,
                 prepareRequests := s.prepareRequests + 1 }
  | .clickAsk =>
      if s.loading = some OpKind.ask then s
      else if s.youtubeUrl = "" ∨ s.question = "" then
        { s with error := "Enter both the URL and a question.",
                 errorKind := some OpKind.ask }
      else
        { s with loading := some OpKind.ask,
                 status := "Thinking…", statusKind := some OpKind.ask,
                 error := "", errorKind := none,
                 pendingAsk := s.pendingAsk + 1,
                 askRequests := s.askRequests + 1,
                 lastAskQuestion := some s.question }
  | .resolvePrepare o =>
      if s.pendingPrepare = 0 then s
      else if o.isFail then
        { s with status := "", statusKind := none,
                 error := o.failMsg, errorKind := some OpKind.index,
                 loading := none, pendingPrepare := s.pendingPrepare - 1 }
      else
        { s with status := "Video ready. Ask away!",
                 statusKind := some OpKind.index,
                 loading := none, pendingPrepare := s.pendingPrepare - 1 }
  | .resolveAsk o =>
      if s.pendingAsk = 0 then s
      else if o.isFail then
        { s with answer := "", sources := [],
                 status := "", statusKind := none,
                 error := o.failMsg, errorKind := some OpKind.ask,
                 loading := none, pendingAsk := s.pendingAsk - 1 }
      else
        { s with answer := o.answerOrEmpty, sources := o.sourcesOrNil,
                 status := "", statusKind := none,
                 loading := none, pendingAsk := s.pendingAsk - 1 }

/-- Run the session-variant machine from the initial render state. -/
def srun (es : List SEvent) : SState := es.foldl sstep {}

/-- The rendered source list of the session variant:
`!!sources.length && sources.map(src => src || "Transcript chunk")`
renders every entry, substituting the placeholder for falsy ones, and
renders nothing when the list is empty. -/
def sessionRenderedSources (srcs : List (Option String)) : List String :=
  if srcs.length = 0 then []
  else srcs.map fun e =>
    match e with
    | some t => if t = "" then "Transcript chunk" else t
    | none => "Transcript chunk"

/-! ## Document (persisted-identity) variant: `handleUpload` / `handleSendQuestion` -/

/-- The `SourceType` union of the document variant. -/
inductive SourceType | pdf | txt | text
deriving DecidableEq, Repr

/-- Roles of a transcript `Message`. -/
inductive Role | user | assistant
deriving DecidableEq, Repr

/-- A transcript entry (`Message` in the code).  `generateId` is embedded
as a monotonic counter (the code draws a fresh UUID; only freshness is
observable).  `sources` is `none` when the field is omitted, as on the
optimistic user turn and on the error assistant turn. -/
structure Message where
  id : Nat
  role : Role
  content : String
  sources : Option (List (Option String)) := none
deriving DecidableEq, Repr

/-- The two operation kinds of the document variant. -/
inductive DOpKind | ingest | query
deriving DecidableEq, Repr

/-- Resolution of the `/upload` fetch: an HTTP response (status, body
text and, when the body parses, the `document_id`) or a transport
error. -/
inductive UploadOutcome
  | resp (status : Nat) (body : String) (docId : String)
  | netErr (msg : String)
deriving DecidableEq, Repr

/-- Whether the `/upload` call throws (`!response.ok`, or the transport
failed). -/
def UploadOutcome.isFail : UploadOutcome → Bool
  | .resp status _ _ => !ok2xx status
  | .netErr _ => true

/-- The thrown error's message for `/upload`:
`(await response.text()) || "Upload failed."`, or the transport error
message. -/
def UploadOutcome.failMsg : UploadOutcome → String
  | .resp _ body _ => errMessage body "Upload failed."
  | .netErr msg => msg

/-- The parsed `document_id` (only read on the success path). -/
def UploadOutcome.docId : UploadOutcome → String
  | .resp _ _ d => d
  | .netErr _ => ""

/-- Resolution of the `/chat` fetch: an HTTP response (status, body text
and, when the body parses, the `answer` and optional `sources` fields) or
a transport error. -/
inductive ChatOutcome
  | resp (status : Nat) (body : String)
      (answer : Option String) (sources : Option (List (Option String)))
  | netErr (msg : String)
deriving DecidableEq, Repr

/-- Whether the `/chat` call throws. -/
def ChatOutcome.isFail : ChatOutcome → Bool
  | .resp status _ _ _ => !ok2xx status
  | .netErr _ => true

/-- The thrown error's message for `/chat`:
`(await response.text()) || "Chat request failed."`, or the transport
error message. -/
def ChatOutcome.failMsg : ChatOutcome → String
  | .resp _ body _ _ => errMessage body "Chat request failed."
  | .netErr msg => msg

/-- The assistant turn's content on the success path:
`data.answer?.trim() || "I wasn\x27t able to craft a response."`. -/
def ChatOutcome.answerText : ChatOutcome → String
  | .resp _ _ a _ =>
      match a with
      | some t =>
          if jsTrim t = "" then "I wasn\x27t able to craft a response."
          else jsTrim t
      | none => "I wasn\x27t able to craft a response."
  | .netErr _ => "I wasn\x27t able to craft a response."

/-- `data.sources ?? []` of the success path. -/
def ChatOutcome.sourcesOrNil : ChatOutcome → List (Option String)
  | .resp _ _ _ src => src.getD []
  | .netErr _ => []

/-- State of the document-variant component.  Code fields are the
`useState` hooks (a selected file is embedded by its name, `none` when no
file is staged).  Ghost fields: `errorKind` records the operation kind
that wrote the current non-`none` `error`; `nextId` drives `generateId`;
`pendingUpload` / `pendingChat` flag a dispatched, unresolved request;
`uploadRequests` / `chatRequests` count every request ever issued;
`lastChatQuestion` is the `question` field of the most recent `/chat`
body. -/
structure DState where
  sourceType : SourceType := .pdf
  pdfFile : Option String := none
  txtFile : Option String := none
  plainText : String := ""
  documentId : Option String := none
  messages : List Message := []
  question : String := ""
  uploadStatus : String := ""
  chatStatus : String := ""
  error : Option String := none
  errorKind : Option DOpKind := none
  isUploading : Bool := false
  isSending : Bool := false
  fileInputKey : Nat := 0
  nextId : Nat := 0
  pendingUpload : Bool := false
  pendingChat : Bool := false
  uploadRequests : Nat := 0
  chatRequests : Nat := 0
  lastChatQuestion : Option String := none
deriving DecidableEq, Repr

/-- Events of the document-variant machine: editing the staged inputs and
the question, switching the source tab, clicking the two buttons, and the
resolution of a dispatched request. -/
inductive DEvent
  | setQuestion (q : String)
  | setPlainText (t : String)
  | setPdfFile (f : Option String)
  | setTxtFile (f : Option String)
  | switchSource (v : SourceType)
  | clickUpload
  | clickSend
  | resolveUpload (o : UploadOutcome)
  | resolveChat (o : ChatOutcome)
deriving DecidableEq, Repr

/-- The validation of `handleUpload` for the active tab: a staged PDF
file, a staged TXT file, or pasted text non-empty after trimming. -/
def uploadValid (s : DState) : Bool :=
  match s.sourceType with
  | .pdf => s.pdfFile.isSome
  | .txt => s.txtFile.isSome
  | .text => !(jsTrim s.plainText = "")

/-- One step of the document-variant machine.

`clickUpload` embeds the upload button (`disabled={isUploading}`) and the
synchronous prefix of `handleUpload`: `setError(null)` and
`setUploadStatus("")` run first, then the active tab's validation sets
only `error` on failure; otherwise `setIsUploading(true)`,
`setUploadStatus("Uploading and indexing…")` and the `/upload` fetch is
dispatched.  `resolveUpload` is the continuation: on success
`setDocumentId`, `setMessages([])`, `setQuestion("")`, the ready status,
and `resetFileInputs()`; on a thrown error `setUploadStatus("")` and
`setError(message)`; both run the `finally` block's
`setIsUploading(false)`.

`clickSend` embeds the send button (`disabled={isSending}`) and the
synchronous prefix of `handleSendQuestion`: the missing-document and
empty-after-trim validations set only `error`; otherwise `setError(null)`,
`setChatStatus("Thinking…")`, `setIsSending(true)`, the optimistic user
turn is appended with the trimmed question, `setQuestion("")`, and the
`/chat` fetch is dispatched with the trimmed question.  `resolveChat` is
the continuation: on success an assistant turn with `answerText` and the
raw `sources ?? []` is appended; on a thrown error an assistant turn whose
content prefixes the message with the warning sign is appended; both run
the `finally` block's `setChatStatus("")` and `setIsSending(false)`. -/
def dstep (s : DState) : DEvent → DState
  | .setQuestion q => { s with question := q }
  | .setPlainText t => { s with plainText := t }
  | .setPdfFile f => { s with pdfFile := f }
  | .setTxtFile f => { s with txtFile := f }
  | .switchSource v => { s with sourceType := v, error := none, errorKind := none }
  | .clickUpload =>
      if s.isUploading then s
      else
        match s.sourceType with
        | .pdf =>
          if s.pdfFile = none then
            { s with uploadStatus := "",
                     error := some "Select a PDF file first.",
                     errorKind := some DOpKind.ingest }
          else
            { s with uploadStatus := "Uploading and indexing…",
                     error := none, errorKind := none,
                     isUploading := true, pendingUpload := true,
                     uploadRequests := s.uploadRequests + 1 }
        | .txt =>
          if s.txtFile = none then
            { s with uploadStatus := "",
                     error := some "Select a TXT file first.",
                     errorKind := some DOpKind.ingest }
          else
            { s with uploadStatus := "Uploading and indexing…",
                     error := none, errorKind := none,
                     isUploading := true, pendingUpload := true,
                     uploadRequests := s.uploadRequests + 1 }
        | .text =>
          if jsTrim s.plainText = "" then
            { s with uploadStatus := "",
                     error := some "Paste some text before uploading.",
                     errorKind := some DOpKind.ingest }
          else
            { s with uploadStatus := "Uploading and indexing…",
                     error := none, errorKind := none,
                     isUploading := true, pendingUpload := true,
                     uploadRequests := s.uploadRequests + 1 }
  | .clickSend =>
      if s.isSending then s
      else if s.documentId = none then
        { s with error := some "Upload a document before chatting.",
                 errorKind := some DOpKind.query }
      else if jsTrim s.question = "" then
        { s with error := some "Type a question first.",
                 errorKind := some DOpKind.query }
      else
        { s with error := none, errorKind := none,
                 chatStatus := "Thinking…", isSending := true,
                 messages := s.messages ++ [⟨s.nextId, .user, jsTrim s.question, none⟩],
                 nextId := s.nextId + 1,
                 question := "",
                 pendingChat := true,
                 chatRequests := s.chatRequests + 1,
                 lastChatQuestion := some (jsTrim s.question) }
  | .resolveUpload o =>
      if s.pendingUpload = false then s
      else if o.isFail then
        { s with uploadStatus := "",
                 error := some o.failMsg, errorKind := some DOpKind.ingest,
                 isUploading := false, pendingUpload := false }
      else
        { s with documentId := some o.docId,
                 messages := [], question := "",
                 uploadStatus := "Document ready. Start chatting!",
                 pdfFile := none, txtFile := none, plainText := "",
                 fileInputKey := s.fileInputKey + 1,
                 isUploading := false, pendingUpload := false }
  | .resolveChat o =>
      if s.pendingChat = false then s
      else if o.isFail then
        { s with messages := s.messages ++
                   [⟨s.nextId, .assistant, "⚠️ " ++ o.failMsg, none⟩],
                 nextId := s.nextId + 1,
                 chatStatus := "", isSending := false, pendingChat := false }
      else
        { s with messages := s.messages ++
                   [⟨s.nextId, .assistant, o.answerText, some o.sourcesOrNil⟩],
                 nextId := s.nextId + 1,
                 chatStatus := "", isSending := false, pendingChat := false }

/-- Run the document-variant machine from the initial render state. -/
def drun (es : List DEvent) : DState := es.foldl dstep {}

/-- The rendered source list of a document-variant message:
`(message.sources ?? []).filter(Boolean)` drops falsy entries (empty
strings and `null`s), and the list is rendered only when non-empty. -/
def renderedMessageSources (m : Message) : List String :=
  (m.sources.getD []).filterMap fun e =>
    match e with
    | some t => if t = "" then none else some t
    | none => none

/-! ## Helper lemmas characterising the step functions -/

/-- Clicking the disabled upload button fires no handler. -/
lemma dstep_clickUpload_inflight (s : DState) (h : s.isUploading = true) :
    dstep s .clickUpload = s := by
  simp [dstep, h]

/-- Clicking the disabled send button fires no handler. -/
lemma dstep_clickSend_inflight (s : DState) (h : s.isSending = true) :
    dstep s .clickSend = s := by
  simp [dstep, h]

/-- `handleUpload` past validation: the request is dispatched. -/
lemma dstep_clickUpload_proceed (s : DState)
    (h : s.isUploading = false) (hv : uploadValid s = true) :
    dstep s .clickUpload =
      { s with uploadStatus := "Uploading and indexing…",
               error := none, errorKind := none,
               isUploading := true, pendingUpload := true,
               uploadRequests := s.uploadRequests + 1 } := by
  unfold dstep uploadValid at *
  cases hs : s.sourceType
  case pdf =>
    rw [hs] at hv
    obtain ⟨a, ha⟩ := Option.isSome_iff_exists.mp hv
    simp [hs, h, ha]
  case txt =>
    rw [hs] at hv
    obtain ⟨a, ha⟩ := Option.isSome_iff_exists.mp hv
    simp [hs, h, ha]
  case text =>
    rw [hs] at hv
    simp only [Bool.not_eq_true', decide_eq_false_iff_not] at hv
    simp [hs, h, hv]

/-- `handleSendQuestion` past validation: the optimistic user turn is
appended and the request is dispatched with the trimmed question. -/
lemma dstep_clickSend_proceed (s : DState) (d : String)
    (h : s.isSending = false) (hid : s.documentId = some d)
    (hq : jsTrim s.question ≠ "") :
    dstep s .clickSend =
      { s with error := none, errorKind := none,
               chatStatus := "Thinking…", isSending := true,
               messages := s.messages ++ [⟨s.nextId, .user, jsTrim s.question, none⟩],
               nextId := s.nextId + 1,
               question := "",
               pendingChat := true,
               chatRequests := s.chatRequests + 1,
               lastChatQuestion := some (jsTrim s.question) } := by
  simp [dstep, h, hid, hq]

/-- A failing `/upload` resolution: banner error, status cleared. -/
lemma dstep_resolveUpload_fail (s : DState) (o : UploadOutcome)
    (hp : s.pendingUpload = true) (hf : o.isFail = true) :
    dstep s (.resolveUpload o) =
      { s with uploadStatus := "",
               error := some o.failMsg, errorKind := some DOpKind.ingest,
               isUploading := false, pendingUpload := false } := by
  simp [dstep, hp, hf]

/-- A successful `/upload` resolution: fresh identity, transcript
cleared, inputs reset. -/
lemma dstep_resolveUpload_success (s : DState) (o : UploadOutcome)
    (hp : s.pendingUpload = true) (hf : o.isFail = false) :
    dstep s (.resolveUpload o) =
      { s with documentId := some o.docId,
               messages := [], question := "",
               uploadStatus := "Document ready. Start chatting!",
               pdfFile := none, txtFile := none, plainText := "",
               fileInputKey := s.fileInputKey + 1,
               isUploading := false, pendingUpload := false } := by
  simp [dstep, hp, hf]

/-- A failing `/chat` resolution: the error is recorded as an assistant
turn in the transcript, not as a banner. -/
lemma dstep_resolveChat_fail (s : DState) (o : ChatOutcome)
    (hp : s.pendingChat = true) (hf : o.isFail = true) :
    dstep s (.resolveChat o) =
      { s with messages := s.messages ++
                 [⟨s.nextId, .assistant, "⚠️ " ++ o.failMsg, none⟩],
               nextId := s.nextId + 1,
               chatStatus := "", isSending := false, pendingChat := false } := by
  simp [dstep, hp, hf]

/-- A successful `/chat` resolution: an assistant turn with the answer
text and the raw sources is appended. -/
lemma dstep_resolveChat_success (s : DState) (o : ChatOutcome)
    (hp : s.pendingChat = true) (hf : o.isFail = false) :
    dstep s (.resolveChat o) =
      { s with messages := s.messages ++
                 [⟨s.nextId, .assistant, o.answerText, some o.sourcesOrNil⟩],
               nextId := s.nextId + 1,
               chatStatus := "", isSending := false, pendingChat := false } := by
  simp [dstep, hp, hf]

/-! ## Claim C1 -/

/-- Session-variant event trace: set the URL and question, start an
ingest, start a query while the ingest is still pending (allowed, the
kinds are independent), then click Prepare again while the first
`/prepare` request is still unresolved. -/
def cexTraceC1 : List SEvent :=
  [.setUrl "u", .setQuestion "q", .clickPrepare, .clickAsk, .clickPrepare]

/-- Claim C1 is false on the session variant: after an ingest is begun
and a query begins while it is pending, the shared `loading` slot holds
`"ask"`, so the Prepare button is enabled again and a second click
dispatches a duplicate `/prepare` request while the first is still in
flight (two pending `/prepare` requests, two issued in total), instead of
failing fast. -/
theorem C1_counterexample :
    (srun (cexTraceC1.take 4)).pendingPrepare = 1 ∧
    (srun (cexTraceC1.take 4)).loading = some OpKind.ask ∧
    (srun cexTraceC1).prepareRequests = 2 ∧
    (srun cexTraceC1).pendingPrepare = 2 := by
  decide

/-- Claim C1 as amended: in the document variant, whose two kinds have
separate `isUploading` / `isSending` flags, a click while an operation of
the same kind is in flight is a no-op (no handler runs, no request is
issued), and a click while that kind is idle proceeds past validation and
issues exactly one request; in the session variant the double-invocation
guard is only the shared `loading` slot: a second click of the same kind
is rejected while the slot still records that kind, and proceeds whenever
it does not — even if a request of that kind is still pending. -/
theorem C1_amended (s : DState) (t : SState) :
    (s.isUploading = true → dstep s .clickUpload = s) ∧
    (s.isSending = true → dstep s .clickSend = s) ∧
    (s.isUploading = false → uploadValid s = true →
       (dstep s .clickUpload).uploadRequests = s.uploadRequests + 1 ∧
       (dstep s .clickUpload).isUploading = true ∧
       (dstep s .clickUpload).pendingUpload = true) ∧
    (∀ d : String, s.isSending = false → s.documentId = some d →
       jsTrim s.question ≠ "" →
       (dstep s .clickSend).chatRequests = s.chatRequests + 1 ∧
       (dstep s .clickSend).isSending = true ∧
       (dstep s .clickSend).pendingChat = true) ∧
    (t.loading = some OpKind.index → sstep t .clickPrepare = t) ∧
    (t.loading = some OpKind.ask → sstep t .clickAsk = t) ∧
    (t.loading ≠ some OpKind.index → t.youtubeUrl ≠ "" →
       (sstep t .clickPrepare).prepareRequests = t.prepareRequests + 1) := by
  refine ⟨fun h => dstep_clickUpload_inflight s h,
          fun h => dstep_clickSend_inflight s h,
          fun h hv => ?_, fun d h hid hq => ?_,
          fun h => by simp [sstep, h], fun h => by simp [sstep, h],
          fun h hu => by simp [sstep, h, hu]⟩
  · rw [dstep_clickUpload_proceed s h hv]
    exact ⟨rfl, rfl, rfl⟩
  · rw [dstep_clickSend_proceed s d h hid hq]
    exact ⟨rfl, rfl, rfl⟩

/-- Witness for C1_amended at a concrete state: a staged pasted text with
no upload in flight dispatches one `/upload` request, and a present
document id with a trimmable question and no query in flight dispatches
one `/chat` request. -/
theorem C1_amended_witness :
    (dstep { sourceType := SourceType.text, plainText := "hello" } .clickUpload).uploadRequests = 1 ∧
    (dstep { documentId := some "doc-1", question := " hi " } .clickSend).chatRequests = 1 := by
  refine ⟨?_, ?_⟩
  · exact (C1_amended { sourceType := SourceType.text, plainText := "hello" } {}).2.2.1
      rfl (by decide) |>.1
  · exact ((C1_amended { documentId := some "doc-1", question := " hi " } {}).2.2.2.1
      "doc-1" rfl rfl (by decide)).1

/-! ## Claim C2 -/

/-- Claim C2: on a failed query (non-2xx or transport error), the
document variant grows the transcript by exactly 2 — the optimistic user
turn appended at click time plus an assistant turn whose content carries
the error message — while the session variant records nothing in any
transcript (it keeps none) and instead discards the pending answer and
sources and sets the banner error. -/
theorem C2_query_failure_paths (s : DState) (d : String) (o : ChatOutcome)
    (hns : s.isSending = false) (hid : s.documentId = some d)
    (hq : jsTrim s.question ≠ "") (hf : o.isFail = true) :
    ((dstep (dstep s .clickSend) (.resolveChat o)).messages.length =
        s.messages.length + 2 ∧
     (dstep (dstep s .clickSend) (.resolveChat o)).messages =
        s.messages ++ [⟨s.nextId, .user, jsTrim s.question, none⟩,
                       ⟨s.nextId + 1, .assistant, "⚠️ " ++ o.failMsg, none⟩]) ∧
    (∀ (t : SState) (a : AskOutcome), t.pendingAsk ≠ 0 → a.isFail = true →
       (sstep t (.resolveAsk a)).answer = "" ∧
       (sstep t (.resolveAsk a)).sources = [] ∧
       (sstep t (.resolveAsk a)).error = a.failMsg) := by
  constructor
  · rw [dstep_clickSend_proceed s d hns hid hq]
    rw [dstep_resolveChat_fail _ o rfl hf]
    simp
  · intro t a hp ha
    simp [sstep, hp, ha]

/-- Witness for C2 at a concrete state: a failed `/chat` with body
"index missing" after one prior exchange leaves a transcript of length 4
ending in the error-bearing assistant turn, and a failed session `/ask`
clears the answer. -/
theorem C2_witness :
    ((dstep (dstep { documentId := some "doc-1", question := "Why?",
                     messages := [⟨0, .user, "a", none⟩, ⟨1, .assistant, "b", some []⟩],
                     nextId := 2 } .clickSend)
        (.resolveChat (.resp 500 "index missing" none none))).messages.length = 4) ∧
    ((sstep { answer := "old", pendingAsk := 1 }
        (.resolveAsk (.netErr "down"))).answer = "") := by
  constructor
  · have h := C2_query_failure_paths
      { documentId := some "doc-1", question := "Why?",
        messages := [⟨0, .user, "a", none⟩, ⟨1, .assistant, "b", some []⟩],
        nextId := 2 }
      "doc-1" (.resp 500 "index missing" none none) rfl rfl (by decide) (by decide)
    exact h.1.1
  · exact ((C2_query_failure_paths { documentId := some "d", question := "q" }
      "d" (.netErr "x") rfl rfl (by decide) (by decide)).2
      { answer := "old", pendingAsk := 1 } (.netErr "down") (by decide) (by decide)).1

/-! ## Claim C3 -/

/-- Session-variant event trace: set the URL, set the question to a
single space (empty after trimming), and click Ask. -/
def cexTraceC3 : List SEvent := [.setUrl "u", .setQuestion " ", .clickAsk]

/-- Claim C3 is false on the session variant: `askVideoQuestion` checks
and transmits the raw `question`.  With the question a single space —
empty after trimming — the validation passes, a `/ask` request is issued,
and its body carries the untrimmed text. -/
theorem C3_counterexample :
    (srun cexTraceC3).askRequests = 1 ∧
    (srun cexTraceC3).lastAskQuestion = some " " ∧
    jsTrim " " = "" := by
  decide

/-- Claim C3 as amended: in the document variant the question is trimmed
before transmission, a question empty after trimming is rejected before
any network call, and the optimistic user turn carrying the trimmed text
is already in the transcript while the request is still pending; in the
session variant the raw, untrimmed question is transmitted and only an
exactly-empty question is rejected. -/
theorem C3_amended (s : DState) (t : SState) :
    (s.isSending = false → jsTrim s.question = "" →
       (dstep s .clickSend).chatRequests = s.chatRequests ∧
       (dstep s .clickSend).messages = s.messages ∧
       (dstep s .clickSend).lastChatQuestion = s.lastChatQuestion) ∧
    (∀ d : String, s.isSending = false → s.documentId = some d →
       jsTrim s.question ≠ "" →
       (dstep s .clickSend).lastChatQuestion = some (jsTrim s.question) ∧
       (dstep s .clickSend).messages =
         s.messages ++ [⟨s.nextId, .user, jsTrim s.question, none⟩] ∧
       (dstep s .clickSend).pendingChat = true) ∧
    (t.loading ≠ some OpKind.ask → t.youtubeUrl ≠ "" → t.question ≠ "" →
       (sstep t .clickAsk).lastAskQuestion = some t.question ∧
       (sstep t .clickAsk).askRequests = t.askRequests + 1) := by
  refine ⟨fun hns hq => ?_, fun d hns hid hq => ?_, fun hl hu hq => ?_⟩
  · unfold dstep
    simp only [hns, Bool.false_eq_true, if_false]
    by_cases hid : s.documentId = none
    · simp [hid]
    · simp [hid, hq]
  · rw [dstep_clickSend_proceed s d hns hid hq]
    exact ⟨rfl, rfl, rfl⟩
  · simp [sstep, hl, hu, hq]

/-- Witness for C3_amended at concrete states: a whitespace-only question
in the document variant issues no request, a padded question is
transmitted trimmed, and the session variant transmits a padded question
verbatim. -/
theorem C3_amended_witness :
    (dstep { documentId := some "doc-1", question := "  " } .clickSend).chatRequests = 0 ∧
    (dstep { documentId := some "doc-1", question := "  What is X?  " } .clickSend).lastChatQuestion
      = some "What is X?" ∧
    (sstep { youtubeUrl := "u", question := "  What is X?  " } .clickAsk).lastAskQuestion
      = some "  What is X?  " := by
  refine ⟨?_, ?_, ?_⟩
  · exact ((C3_amended { documentId := some "doc-1", question := "  " } {}).1
      rfl (by decide)).1
  · have h := ((C3_amended { documentId := some "doc-1", question := "  What is X?  " } {}).2.1
      "doc-1" rfl rfl (by decide)).1
    rw [h]
    decide
  · exact ((C3_amended {} { youtubeUrl := "u", question := "  What is X?  " }).2.2
      (by decide) (by decide) (by decide)).1

/-! ## Claim C4 -/

/-- Claim C4: in the document variant, every 2xx `/upload` resolution
sets the `SessionIdentity` to the returned `document_id` (non-null) and
clears the transcript — re-ingestion from any prior state replaces the
identity wholesale and empties any prior transcript. -/
theorem C4_ingest_success (s : DState) (st : Nat) (b d : String)
    (hp : s.pendingUpload = true) (hok : ok2xx st = true) :
    (dstep s (.resolveUpload (.resp st b d))).documentId = some d ∧
    (dstep s (.resolveUpload (.resp st b d))).messages = [] := by
  have hf : (UploadOutcome.resp st b d).isFail = false := by
    simp [UploadOutcome.isFail, hok]
  rw [dstep_resolveUpload_success s _ hp hf]
  exact ⟨rfl, rfl⟩

/-- Witness for C4 at a concrete state: a prior identity and transcript
are replaced wholesale by a 200 `/upload` returning "doc-2". -/
theorem C4_witness :
    (dstep { documentId := some "doc-1",
             messages := [⟨0, .user, "a", none⟩],
             pendingUpload := true, isUploading := true }
       (.resolveUpload (.resp 200 "" "doc-2"))).documentId = some "doc-2" ∧
    (dstep { documentId := some "doc-1",
             messages := [⟨0, .user, "a", none⟩],
             pendingUpload := true, isUploading := true }
       (.resolveUpload (.resp 200 "" "doc-2"))).messages = [] :=
  C4_ingest_success
    { documentId := some "doc-1", messages := [⟨0, .user, "a", none⟩],
      pendingUpload := true, isUploading := true }
    200 "" "doc-2" rfl (by decide)

/-! ## Claim C5 -/

/-- Claim C5: in the document variant, every ingestion failure —
validation failure at click time, non-2xx `/upload` response, or
transport error — leaves the `SessionIdentity` and the transcript at
their pre-operation values, sets the error slot, and clears the upload
status. -/
theorem C5_ingest_failure_frame (s : DState) :
    (s.isUploading = false → uploadValid s = false →
       (dstep s .clickUpload).documentId = s.documentId ∧
       (dstep s .clickUpload).messages = s.messages ∧
       (dstep s .clickUpload).error.isSome = true ∧
       (dstep s .clickUpload).uploadStatus = "") ∧
    (∀ o : UploadOutcome, s.pendingUpload = true → o.isFail = true →
       (dstep s (.resolveUpload o)).documentId = s.documentId ∧
       (dstep s (.resolveUpload o)).messages = s.messages ∧
       (dstep s (.resolveUpload o)).error = some o.failMsg ∧
       (dstep s (.resolveUpload o)).uploadStatus = "") := by
  constructor
  · intro h hv
    unfold dstep
    unfold uploadValid at hv
    cases hs : s.sourceType <;> rw [hs] at hv <;>
      simp only [h, Bool.false_eq_true, if_false] <;>
      simp_all
  · intro o hp hf
    rw [dstep_resolveUpload_fail s o hp hf]
    exact ⟨rfl, rfl, rfl, rfl⟩

/-- Witness for C5 at concrete states: a missing PDF at click time and a
500 `/upload` with body "bad file" both leave identity and transcript
untouched. -/
theorem C5_witness :
    ((dstep { documentId := some "doc-1", messages := [⟨0, .user, "a", none⟩] }
        .clickUpload).documentId = some "doc-1") ∧
    ((dstep { documentId := some "doc-1", messages := [⟨0, .user, "a", none⟩],
              pendingUpload := true, isUploading := true }
        (.resolveUpload (.resp 500 "bad file" ""))).error = some "bad file") := by
  constructor
  · exact ((C5_ingest_failure_frame
      { documentId := some "doc-1", messages := [⟨0, .user, "a", none⟩] }).1
      rfl (by decide)).1
  · have h := ((C5_ingest_failure_frame
      { documentId := some "doc-1", messages := [⟨0, .user, "a", none⟩],
        pendingUpload := true, isUploading := true }).2
      (.resp 500 "bad file" "") rfl (by decide)).2.2.1
    rw [h]
    decide

/-! ## Claim C6 -/

/-- Claim C6: for every endpoint, any HTTP status outside 200..299 is a
failure (`ok2xx` is exactly the 2xx test), and the thrown, user-visible
message is the raw body text when non-empty, else the fixed fallback of
the operation — "Request failed." for both session-variant endpoints
(`/prepare` and `/ask` share `callBackend`), "Upload failed." for
`/upload`, and "Chat request failed." for `/chat`. -/
theorem C6_error_messages (st : Nat) (b dId : String) (a : Option String)
    (src : Option (List (Option String))) (hfail : ok2xx st = false) :
    ¬(200 ≤ st ∧ st ≤ 299) ∧
    (PrepOutcome.isFail (.resp st b) = true ∧
     PrepOutcome.failMsg (.resp st b) =
       (if b = "" then "Request failed." else b)) ∧
    (AskOutcome.isFail (.resp st b a src) = true ∧
     AskOutcome.failMsg (.resp st b a src) =
       (if b = "" then "Request failed." else b)) ∧
    (UploadOutcome.isFail (.resp st b dId) = true ∧
     UploadOutcome.failMsg (.resp st b dId) =
       (if b = "" then "Upload failed." else b)) ∧
    (ChatOutcome.isFail (.resp st b a src) = true ∧
     ChatOutcome.failMsg (.resp st b a src) =
       (if b = "" then "Chat request failed." else b)) := by
  refine ⟨fun hle => ?_,
          ⟨by simp [PrepOutcome.isFail, hfail], rfl⟩,
          ⟨by simp [AskOutcome.isFail, hfail], rfl⟩,
          ⟨by simp [UploadOutcome.isFail, hfail], rfl⟩,
          ⟨by simp [ChatOutcome.isFail, hfail], rfl⟩⟩
  unfold ok2xx at hfail
  simp only [Bool.and_eq_false_iff, decide_eq_false_iff_not] at hfail
  rcases hfail with h | h
  · exact h hle.1
  · exact h hle.2

/-- Witness for C6 at status 500: an empty body falls back to the fixed
strings and a non-empty body is surfaced verbatim. -/
theorem C6_witness :
    UploadOutcome.failMsg (.resp 500 "" "") = "Upload failed." ∧
    ChatOutcome.failMsg (.resp 500 "index missing" none none) = "index missing" := by
  constructor
  · have h := (C6_error_messages 500 "" "" none none (by decide)).2.2.2.1.2
    rw [h]
    decide
  · have h := (C6_error_messages 500 "index missing" "" none none (by decide)).2.2.2.2.2
    rw [h]
    decide

/-! ## Claim C7 -/

/-- Session-variant event trace: a successful ingest leaves the lingering
status "Video ready. Ask away!", then the URL is edited back to empty and
Prepare is clicked again, whose validation failure sets the error without
clearing the status. -/
def cexTraceC7 : List SEvent :=
  [.setUrl "u", .clickPrepare, .resolvePrepare (.resp 200 ""),
   .setUrl "", .clickPrepare]

/-- Claim C7 is false on the session variant: the reached state holds
both a non-empty status and a non-empty error, both written by the ingest
kind — `prepareVideo`'s validation failure sets the error without
clearing the status. -/
theorem C7_counterexample :
    (srun cexTraceC7).status = "Video ready. Ask away!" ∧
    (srun cexTraceC7).statusKind = some OpKind.index ∧
    (srun cexTraceC7).error = "Paste a YouTube URL first." ∧
    (srun cexTraceC7).errorKind = some OpKind.index := by
  decide

/-- Invariant of the document-variant machine backing the amended C7,
with the auxiliary facts needed for preservation: the in-flight flags
mirror the pending-request flags, a non-empty chat status implies a query
in flight, and an operation in flight excludes an error of its own
kind. -/
def DExclusive (s : DState) : Prop :=
  (s.uploadStatus ≠ "" → ¬(s.error ≠ none ∧ s.errorKind = some DOpKind.ingest))
  ∧ s.isUploading = s.pendingUpload
  ∧ (s.isUploading = true → ¬(s.error ≠ none ∧ s.errorKind = some DOpKind.ingest))
  ∧ s.isSending = s.pendingChat
  ∧ (s.chatStatus ≠ "" → s.isSending = true)
  ∧ (s.isSending = true → ¬(s.error ≠ none ∧ s.errorKind = some DOpKind.query))

lemma dexclusive_init : DExclusive {} := by
  refine ⟨fun h => absurd rfl h, rfl, fun h => by simp at h, rfl,
          fun h => absurd rfl h, fun h => by simp at h⟩

lemma dexclusive_step (s : DState) (e : DEvent) (h : DExclusive s) :
    DExclusive (dstep s e) := by
  obtain ⟨h1, h2, h3, h4, h5, h6⟩ := h
  cases e with
  | setQuestion q => exact ⟨h1, h2, h3, h4, h5, h6⟩
  | setPlainText t => exact ⟨h1, h2, h3, h4, h5, h6⟩
  | setPdfFile f => exact ⟨h1, h2, h3, h4, h5, h6⟩
  | setTxtFile f => exact ⟨h1, h2, h3, h4, h5, h6⟩
  | switchSource v =>
      exact ⟨fun _ hc => hc.1 rfl, h2, fun _ hc => hc.1 rfl, h4, h5,
             fun _ hc => hc.1 rfl⟩
  | clickUpload =>
      simp only [dstep]
      split
      · exact ⟨h1, h2, h3, h4, h5, h6⟩
      · split <;> split <;>
          refine ⟨?_, ?_, ?_, ?_, ?_, ?_⟩ <;> simp_all
  | clickSend =>
      simp only [dstep]
      split
      · exact ⟨h1, h2, h3, h4, h5, h6⟩
      · split
        · refine ⟨?_, ?_, ?_, ?_, ?_, ?_⟩ <;> simp_all
        · split <;> refine ⟨?_, ?_, ?_, ?_, ?_, ?_⟩ <;> simp_all
  | resolveUpload o =>
      simp only [dstep]
      split
      · exact ⟨h1, h2, h3, h4, h5, h6⟩
      · rename_i hp
        have hpu : s.pendingUpload = true := by
          revert hp; cases s.pendingUpload <;> simp
        have hiu : s.isUploading = true := h2.trans hpu
        have hne := h3 hiu
        split <;> refine ⟨?_, ?_, ?_, ?_, ?_, ?_⟩ <;> simp_all
  | resolveChat o =>
      simp only [dstep]
      split
      · exact ⟨h1, h2, h3, h4, h5, h6⟩
      · split <;> refine ⟨?_, ?_, ?_, ?_, ?_, ?_⟩ <;> simp_all

lemma dexclusive_run (es : List DEvent) : DExclusive (drun es) := by
  unfold drun
  have key : ∀ (l : List DEvent) (s : DState), DExclusive s →
      DExclusive (l.foldl dstep s) := by
    intro l
    induction l with
    | nil => intro s hs; exact hs
    | cons e l ih => intro s hs; exact ih (dstep s e) (dexclusive_step s e hs)
  exact key es {} dexclusive_init

/-- Claim C7 as amended: in the document variant, no reachable state
holds both a non-empty status and an error written by the same operation
kind; in the session variant the network transitions keep status and
error exclusive, but a validation failure sets the error without clearing
a lingering status, so both can coexist. -/
theorem C7_amended (es : List DEvent) :
    ((drun es).uploadStatus ≠ "" →
       ¬((drun es).error ≠ none ∧ (drun es).errorKind = some DOpKind.ingest)) ∧
    ((drun es).chatStatus ≠ "" →
       ¬((drun es).error ≠ none ∧ (drun es).errorKind = some DOpKind.query)) := by
  obtain ⟨h1, _, _, _, h5, h6⟩ := dexclusive_run es
  exact ⟨h1, fun hc => h6 (h5 hc)⟩

/-- Witness trace for C7_amended: after a successful text upload the
upload status is non-empty ("Document ready. Start chatting!"). -/
def witTraceC7 : List DEvent :=
  [.switchSource .text, .setPlainText "Paris is the capital of France.",
   .clickUpload, .resolveUpload (.resp 200 "" "doc-1")]

/-- Witness for C7_amended: at the reached state with its non-empty
upload status there is no ingest-kind error. -/
theorem C7_witness :
    ¬((drun witTraceC7).error ≠ none ∧
      (drun witTraceC7).errorKind = some DOpKind.ingest) :=
  (C7_amended witTraceC7).1 (by decide)

/-! ## Claim C8 -/

/-- Session-variant event trace: start an ingest, start a query while the
ingest is pending, then let the ingest complete. -/
def cexTraceC8 : List SEvent :=
  [.setUrl "u", .setQuestion "q", .clickPrepare, .clickAsk,
   .resolvePrepare (.resp 200 "")]

/-- Claim C8 is false on the session variant: the in-flight indication is
the single `loading` slot shared by both kinds.  With a query in flight
(`loading = "ask"`, one pending `/ask`), the completion of the *ingest*
runs its `finally` block's `setLoading(null)` and clears the query's
in-flight indication while the `/ask` request is still pending — the
completion of one kind clears the other kind's flag. -/
theorem C8_counterexample :
    (srun (cexTraceC8.take 4)).loading = some OpKind.ask ∧
    (srun (cexTraceC8.take 4)).pendingAsk = 1 ∧
    (srun cexTraceC8).loading = none ∧
    (srun cexTraceC8).pendingAsk = 1 := by
  decide

/-- Claim C8 as amended: in the document variant the two kinds are truly
independent — a `/upload` resolution never touches `isSending` or the
pending query, a `/chat` resolution never touches `isUploading` or the
pending upload, and each operation may begin whenever its own flag is
clear, with no condition on the other kind's flag; in the session variant
the single shared `loading` slot means beginning or completing one kind
can clear the other kind's indication. -/
theorem C8_amended (s : DState) :
    (∀ o : UploadOutcome,
       (dstep s (.resolveUpload o)).isSending = s.isSending ∧
       (dstep s (.resolveUpload o)).pendingChat = s.pendingChat) ∧
    (∀ o : ChatOutcome,
       (dstep s (.resolveChat o)).isUploading = s.isUploading ∧
       (dstep s (.resolveChat o)).pendingUpload = s.pendingUpload) ∧
    (s.isUploading = false → uploadValid s = true →
       (dstep s .clickUpload).isUploading = true ∧
       (dstep s .clickUpload).uploadRequests = s.uploadRequests + 1) ∧
    (∀ d : String, s.isSending = false → s.documentId = some d →
       jsTrim s.question ≠ "" →
       (dstep s .clickSend).isSending = true ∧
       (dstep s .clickSend).chatRequests = s.chatRequests + 1) := by
  refine ⟨fun o => ?_, fun o => ?_, fun h hv => ?_, fun d h hid hq => ?_⟩
  · simp only [dstep]
    split
    · exact ⟨rfl, rfl⟩
    · split <;> exact ⟨rfl, rfl⟩
  · simp only [dstep]
    split
    · exact ⟨rfl, rfl⟩
    · split <;> exact ⟨rfl, rfl⟩
  · rw [dstep_clickUpload_proceed s h hv]
    exact ⟨rfl, rfl⟩
  · rw [dstep_clickSend_proceed s d h hid hq]
    exact ⟨rfl, rfl⟩

/-- A state with an upload and a query both in flight. -/
def witStateC8a : DState :=
  { isUploading := true, pendingUpload := true,
    isSending := true, pendingChat := true }

/-- A state with an upload in flight, an identity and a question. -/
def witStateC8b : DState :=
  { isUploading := true, pendingUpload := true,
    documentId := some "doc-1", question := "q" }

/-- Witness for C8_amended at a concrete state with both kinds active: a
`/upload` resolution leaves the pending query untouched, and a query may
begin while an upload is in flight. -/
theorem C8_witness :
    (dstep witStateC8a (.resolveUpload (.resp 200 "" "doc-1"))).pendingChat = true ∧
    (dstep witStateC8b .clickSend).chatRequests = 1 := by
  constructor
  · exact ((C8_amended witStateC8a).1 (.resp 200 "" "doc-1")).2
  · exact ((C8_amended witStateC8b).2.2.2 "doc-1" rfl rfl (by decide)).2

/-! ## Claim C9 -/

/-- Session-variant event trace: a successful `/ask` returning the
sources list of the claim's example, with an empty entry and a `null`
entry. -/
def cexTraceC9 : List SEvent :=
  [.setUrl "u", .setQuestion "q", .clickAsk,
   .resolveAsk (.resp 200 "" (some "A") (some [some "", some "Ch.1", none]))]

/-- Claim C9 is false on the session variant: falsy source entries are
not filtered from the rendered list — `sources.map(src => src ||
"Transcript chunk")` renders every entry, substituting a placeholder for
the falsy ones, so the stored `["", "Ch.1", null]` renders as three items
rather than as `["Ch.1"]`. -/
theorem C9_counterexample :
    (srun cexTraceC9).sources = [some "", some "Ch.1", none] ∧
    sessionRenderedSources (srun cexTraceC9).sources =
      ["Transcript chunk", "Ch.1", "Transcript chunk"] ∧
    sessionRenderedSources (srun cexTraceC9).sources ≠ ["Ch.1"] := by
  decide

/-- Claim C9 as amended: in the document variant the assistant turn
stores the raw backend sources while rendering filters the falsy entries
(the claim's example `["", "Ch.1", null]` renders as `["Ch.1"]`), and
zero sources render nothing; in the session variant the raw entries are
stored but every entry is rendered, falsy ones as the placeholder
"Transcript chunk", and zero sources render nothing. -/
theorem C9_amended (s : DState) (o : ChatOutcome)
    (hp : s.pendingChat = true) (hf : o.isFail = false) :
    ((dstep s (.resolveChat o)).messages.getLast? =
       some ⟨s.nextId, .assistant, o.answerText, some o.sourcesOrNil⟩) ∧
    (∀ m : Message, m.sources = some [some "", some "Ch.1", none] →
       renderedMessageSources m = ["Ch.1"]) ∧
    (∀ m : Message, m.sources = some [] → renderedMessageSources m = []) ∧
    sessionRenderedSources [] = [] := by
  refine ⟨?_, fun m hm => ?_, fun m hm => ?_, rfl⟩
  · rw [dstep_resolveChat_success s o hp hf]
    simp
  · simp [renderedMessageSources, hm]
  · simp [renderedMessageSources, hm]

/-- Witness for C9_amended on the claim's own example response: the
stored assistant turn keeps the raw three-element list and its rendering
filters down to the single truthy entry. -/
theorem C9_witness :
    ((dstep { pendingChat := true, isSending := true, documentId := some "doc-1" }
        (.resolveChat (.resp 200 "" (some "A")
          (some [some "", some "Ch.1", none])))).messages.getLast? =
      some ⟨0, .assistant, "A", some [some "", some "Ch.1", none]⟩) ∧
    renderedMessageSources ⟨0, .assistant, "A", some [some "", some "Ch.1", none]⟩ =
      ["Ch.1"] := by
  constructor
  · have h := (C9_amended
      { pendingChat := true, isSending := true, documentId := some "doc-1" }
      (.resp 200 "" (some "A") (some [some "", some "Ch.1", none]))
      rfl (by decide)).1
    rw [h]
    decide
  · exact (C9_amended
      { pendingChat := true, isSending := true, documentId := some "doc-1" }
      (.resp 200 "" (some "A") (some [some "", some "Ch.1", none]))
      rfl (by decide)).2.1
      ⟨0, .assistant, "A", some [some "", some "Ch.1", none]⟩ rfl

/-! ## Claim C10 -/

/-- Claim C10: in the session variant, a failed `/ask` resolution clears
the displayed answer and sources to empty — wiping any prior successful
answer, not merely the pending result — and sets the banner error,
clearing the status. -/
theorem C10_session_query_failure (t : SState) (o : AskOutcome)
    (hp : t.pendingAsk ≠ 0) (hf : o.isFail = true) :
    (sstep t (.resolveAsk o)).answer = "" ∧
    (sstep t (.resolveAsk o)).sources = [] ∧
    (sstep t (.resolveAsk o)).error = o.failMsg ∧
    (sstep t (.resolveAsk o)).status = "" := by
  simp [sstep, hp, hf]

/-- Witness for C10 at a concrete state carrying a previously displayed
successful answer: the transport failure wipes it. -/
theorem C10_witness :
    (sstep { answer := "Paris.", sources := [some "chunk-1"],
             pendingAsk := 1, loading := some OpKind.ask }
       (.resolveAsk (.netErr "Failed to fetch"))).answer = "" ∧
    (sstep { answer := "Paris.", sources := [some "chunk-1"],
             pendingAsk := 1, loading := some OpKind.ask }
       (.resolveAsk (.netErr "Failed to fetch"))).sources = [] ∧
    (sstep { answer := "Paris.", sources := [some "chunk-1"],
             pendingAsk := 1, loading := some OpKind.ask }
       (.resolveAsk (.netErr "Failed to fetch"))).error = "Failed to fetch" := by
  have h := C10_session_query_failure
    { answer := "Paris.", sources := [some "chunk-1"],
      pendingAsk := 1, loading := some OpKind.ask }
    (.netErr "Failed to fetch") (by decide) (by decide)
  exact ⟨h.1, h.2.1, h.2.2.1⟩

end AskMyVideo
